import Mathlib

/-!
Verification development for a Gate.io websocket latency-test client
(`src/main.rs`).  The client keeps a market-data feed and a trading session,
authenticates the trading session with an HMAC-SHA512 signature, and fires a
single order once a positive ask price has been observed while the session is
authenticated; inbound order acknowledgments are correlated to the outbound
request and their latencies are recorded.

The definitions below are a shallow embedding of the corresponding Rust
functions: JSON values become an inductive type, the `HashMap`s of
`GateIOAccount` become association lists, `Instant`s become natural-number
time stamps, and `f64` prices/latencies become rationals (the source values
are nowhere near binary-rounding boundaries for the properties considered).
-/

namespace GateIO

/-- JSON values, the shape of every inbound frame (`serde_json::Value`). -/
inductive J : Type where
  | null : J
  | bool (b : Bool) : J
  | num (q : ℚ) : J
  | str (s : String) : J
  | arr (xs : List J) : J
  | obj (fields : List (String × J)) : J

/-- Lookup in an association list, first binding wins (`HashMap::get`). -/
def lookupA {α : Type} : List (String × α) → String → Option α
  | [], _ => none
  | (k', v) :: rest, k => if k = k' then some v else lookupA rest k

/-- Remove every binding of a key (`HashMap::remove`). -/
def removeA {α : Type} : List (String × α) → String → List (String × α)
  | [], _ => []
  | (k', v) :: rest, k => if k = k' then removeA rest k else (k', v) :: removeA rest k

/-- Insert or overwrite a binding (`HashMap::insert`). -/
def insertA {α : Type} (l : List (String × α)) (k : String) (v : α) : List (String × α) :=
  (k, v) :: removeA l k

/-- Field access on a JSON object (`Value::get`). -/
def jget (v : J) (k : String) : Option J :=
  match v with
  | .obj fields => lookupA fields k
  | _ => none

/-- String extraction (`Value::as_str`). -/
def jstr : J → Option String
  | .str s => some s
  | _ => none

/-- Object test used for the header (`Value::as_object` succeeds). -/
def jheader (response : J) : Option J :=
  match jget response "header" with
  | some (J.obj fields) => some (J.obj fields)
  | _ => none

/-- A field read from the nested header if present there, else from the root
(`header.and_then(get k).or_else(root.get k)`). -/
def hdrOrRoot (response : J) (k : String) : Option J :=
  ((jheader response).bind (fun h => jget h k)).orElse (fun _ => jget response k)

/-- String field with the header-or-root fallback and a default
(`...and_then(as_str).unwrap_or(d)`). -/
def strField (response : J) (k : String) (d : String) : String :=
  ((hdrOrRoot response k).bind jstr).getD d

/-- The three correlation maps owned by `GateIOAccount`: send instants,
acknowledgment counts, and per-acknowledgment latencies keyed by
`response_<n>`. -/
structure Tracker : Type where
  sent_time_map : List (String × Nat)
  response_count : List (String × Nat)
  response_times : List (String × List (String × Nat))
deriving DecidableEq

/-- The latency summary printed when an entry retires: latency of each of the
two acknowledgments, their pairwise difference, and the total count. -/
structure Summary : Type where
  response_1 : Option Nat
  response_2 : Option Nat
  diff : Option Int
  total : Nat
deriving DecidableEq

/-- The observable outcome of one `handle_message` call: the new value of the
`authenticated` flag, the new tracker maps, the `(response_num, latency)`
pair recorded for a tracked acknowledgment, and the retirement summary. -/
structure HandleResult : Type where
  authenticated : Bool
  tracker : Tracker
  observed : Option (Nat × Nat)
  summary : Option Summary
deriving DecidableEq

/-- The `spot.order_place` branch of `handle_message` (src/main.rs lines
299-382): record the latency of a tracked acknowledgment and retire the
entry once two acknowledgments arrived or the status is terminal. -/
def observe_order_response (authenticated : Bool) (tr : Tracker)
    (req_id status : String) (received_time : Nat) : HandleResult :=
  if req_id = "" then ⟨authenticated, tr, none, none⟩
  else
    match lookupA tr.sent_time_map req_id with
    | none => ⟨authenticated, tr, none, none⟩
    | some sent_time =>
        let latency := received_time - sent_time
        let response_num := (lookupA tr.response_count req_id).getD 0 + 1
        let response_count' := insertA tr.response_count req_id response_num
        let times := (lookupA tr.response_times req_id).getD []
        let times' := insertA times ("response_" ++ toString response_num) latency
        let response_times' := insertA tr.response_times req_id times'
        if 2 ≤ response_num ∨ status = "201" ∨ status = "400" then
          let r1 := lookupA times' "response_1"
          let r2 := lookupA times' "response_2"
          let diff : Option Int :=
            if 2 ≤ response_num then
              match r1, r2 with
              | some a, some b => some ((b : Int) - (a : Int))
              | _, _ => none
            else none
          ⟨authenticated,
           ⟨removeA tr.sent_time_map req_id, removeA response_count' req_id,
            removeA response_times' req_id⟩,
           some (response_num, latency), some ⟨r1, r2, diff, response_num⟩⟩
        else
          ⟨authenticated, ⟨tr.sent_time_map, response_count', response_times'⟩,
           some (response_num, latency), none⟩

/-- `GateIOAccount::handle_message` (src/main.rs lines 230-385), restricted to
its state effects: route the frame on its channel/event (header-or-root
fallback), set the `authenticated` flag on a `"200"` login status, and feed
order acknowledgments to `observe_order_response`. -/
def handle_message (authenticated : Bool) (tr : Tracker) (response : J)
    (received_time : Nat) : HandleResult :=
  let channel := strField response "channel" ""
  let event := strField response "event" ""
  if channel = "spot.login" ∧ event = "api" then
    let status := strField response "status" ""
    if status = "200" then ⟨true, tr, none, none⟩
    else ⟨authenticated, tr, none, none⟩
  else if channel = "spot.ping" ∨ channel = "spot.pong" then
    ⟨authenticated, tr, none, none⟩
  else if channel = "spot.order_place" ∧ event = "api" then
    observe_order_response authenticated tr (strField response "request_id" "")
      (strField response "status" "unknown") received_time
  else ⟨authenticated, tr, none, none⟩

/-- The tracking inserts performed by `create_order` right after an order is
sent (src/main.rs lines 211-215): `sent_at` is recorded and the entry starts
with zero acknowledgments and an empty latency table. -/
def trackerBegin (tr : Tracker) (req_id : String) (send_time : Nat) : Tracker :=
  ⟨insertA tr.sent_time_map req_id send_time,
   insertA tr.response_count req_id 0,
   insertA tr.response_times req_id []⟩

/-- The order frame built by `create_order` (struct `OrderRequest` with its
`OrderPayload`/`OrderParam`, flattened). -/
structure OrderFrame : Type where
  time : Nat
  channel : String
  event : String
  req_id : String
  currency_pair : String
  side : String
  order_type : String
  amount : String
  price : String
  time_in_force : String
deriving DecidableEq

/-- `GateIOAccount::create_order` (src/main.rs lines 173-228) as a pure
function of the authenticated flag, the tracker and the parameters: the
guard returns successfully without a frame and without touching the tracker;
otherwise the frame is built (side/type/time-in-force lowercased, amount and
price rendered as strings) and tracking begins.  The clock reads `ts`,
`req_id` and `send_time` are passed explicitly; serialization and the socket
send are external effects outside the model. -/
def create_order (authenticated : Bool) (tr : Tracker) (side symbol : String)
    (quantity price : ℚ) (order_type time_in_force : String)
    (ts : Nat) (req_id : String) (send_time : Nat) : Option OrderFrame × Tracker :=
  if ¬authenticated ∨ quantity ≤ 0 ∨ price ≤ 0 then (none, tr)
  else
    (some ⟨ts, "spot.order_place", "api", req_id, symbol, side.toLower,
           order_type.toLower, toString quantity, toString price, time_in_force.toLower⟩,
     trackerBegin tr req_id send_time)

/-- Digits of a decimal literal folded to a natural number. -/
def digitsToNat (cs : List Char) : Nat :=
  cs.foldl (fun n c => n * 10 + (c.toNat - 48)) 0

/-- Split a character list at every occurrence of a separator. -/
def splitParts (sep : Char) : List Char → List (List Char)
  | [] => [[]]
  | c :: rest =>
      let ps := splitParts sep rest
      if c = sep then [] :: ps
      else
        match ps with
        | p :: tail => (c :: p) :: tail
        | [] => [[c]]

/-- Model of Rust's `str::parse::<f64>` restricted to plain decimal literals
`[+-]? digits [. digits]` (scientific notation, `inf` and `NaN` do not occur
in book-ticker ask fields); the result is exact as a rational.  Returns
`none` on anything that is not such a literal. -/
def parseDecimal (s : String) : Option ℚ :=
  let signed : List Char → Option ℚ := fun cs =>
    match splitParts '.' cs with
    | [intPart] =>
        if intPart ≠ [] ∧ intPart.all Char.isDigit then
          some ((digitsToNat intPart : ℚ))
        else none
    | [intPart, fracPart] =>
        if (intPart ≠ [] ∨ fracPart ≠ []) ∧ intPart.all Char.isDigit ∧
            fracPart.all Char.isDigit then
          some ((digitsToNat intPart : ℚ) +
            (digitsToNat fracPart : ℚ) / ((10 : ℚ) ^ fracPart.length))
        else none
    | _ => none
  match s.data with
  | '-' :: rest => (signed rest).map (fun q => -q)
  | '+' :: rest => signed rest
  | cs => signed cs

/-- The shared price cell of the orderbook task (struct `SharePrice`), with
the update time stamp abstracted to the logical clock. -/
structure SharePrice : Type where
  gia_mua_gate : Option ℚ
  time_gia_gate : Option Nat
  orderbook_ready : Bool
deriving DecidableEq

/-- The subscribed pair, `format!("{}_USDT", SYMBOL)` with `SYMBOL = "ALCH"`. -/
def pair : String := "ALCH_USDT"

/-- Whole-program shared state: the `authenticated` flag and correlation maps
of `GateIOAccount`, plus the orderbook task's locals (`share_price`,
`last_price_print`, `order_placed`).  `orders_spawned` counts executions of
the `tokio::spawn` that submits the order, `displays` counts emitted
price-display lines, and `last_displayed` is specification-only ghost state
recording the price shown by the most recent display. -/
structure SysState : Type where
  authenticated : Bool
  tracker : Tracker
  share_price : SharePrice
  last_print : Nat
  order_placed : Bool
  orders_spawned : Nat
  displays : Nat
  last_displayed : Option ℚ
deriving DecidableEq

/-- Body of the orderbook loop once `best_ask` has been computed
(src/main.rs lines 426-480): overwrite the shared price unconditionally,
emit a display when the price moved by more than 0.001 from the previously
stored price or more than 5 seconds passed since the last display, and fire
the single order task when the flag is unset, the price positive and the
session authenticated. -/
def book_ticker_update (s : SysState) (best_ask : ℚ) (now : Nat) : SysState :=
  let old_price := s.share_price.gia_mua_gate
  let share_price' : SharePrice := ⟨some best_ask, some now, true⟩
  let should_print : Bool :=
    old_price.isNone ||
    (match old_price with
     | none => true
     | some old => decide ((0.001 : ℚ) < |best_ask - old|)) ||
    decide (5 < now - s.last_print)
  let s1 : SysState :=
    { s with
      share_price := share_price'
      displays := if should_print then s.displays + 1 else s.displays
      last_print := if should_print then now else s.last_print
      last_displayed := if should_print then some best_ask else s.last_displayed }
  if (!s.order_placed && decide ((0 : ℚ) < best_ask) && s.authenticated) = true then
    { s1 with order_placed := true, orders_spawned := s1.orders_spawned + 1 }
  else s1

/-- One iteration of the orderbook receive loop on a parsed text frame
(src/main.rs lines 414-484): only `spot.book_ticker`/`update` frames whose
`result.s` equals the subscribed pair are acted on, the ask is read from
`result.a` as a string and parsed, with parse failure defaulting to 0.  Note
that this loop reads `channel`/`event` from the root only (no header
fallback). -/
def market_step (s : SysState) (data : J) (now : Nat) : SysState :=
  if (jget data "channel").bind jstr = some "spot.book_ticker" ∧
      (jget data "event").bind jstr = some "update" then
    match jget data "result" with
    | some result =>
        if (jget result "s").bind jstr = some pair then
          book_ticker_update s
            ((((jget result "a").bind jstr).bind parseDecimal).getD 0) now
        else s
    | none => s
  else s

/-- An observable event of the two concurrent loops: a text frame handled by
the trading session (`handle_message`), a text frame received by the
orderbook loop, or an adversarial write to the shared `authenticated` flag
standing for an arbitrary interleaved action of the other task. -/
inductive Ev : Type where
  | tradingMsg (msg : J) (now : Nat) : Ev
  | marketMsg (msg : J) (now : Nat) : Ev
  | setAuth (b : Bool) : Ev

/-- Events that correspond to code of the program itself;
`Ev.setAuth` is the adversarial environment action and is excluded. -/
def Ev.isProgramEvent : Ev → Bool
  | .setAuth _ => false
  | _ => true

/-- Interleaved small-step semantics of the two loops over the shared state. -/
def step (s : SysState) : Ev → SysState
  | .tradingMsg msg now =>
      let r := handle_message s.authenticated s.tracker msg now
      { s with authenticated := r.authenticated, tracker := r.tracker }
  | .marketMsg msg now => market_step s msg now
  | .setAuth b => { s with authenticated := b }

/-- Run a sequence of interleaved events. -/
def run (s : SysState) (evs : List Ev) : SysState :=
  evs.foldl step s

/-- Process start state: `GateIOAccount::new` initializes `authenticated` to
`false` with empty maps, and the orderbook loop starts with a default
`SharePrice`, `order_placed = false` and no order task spawned. -/
def initState : SysState :=
  ⟨false, ⟨[], [], []⟩, ⟨none, none, false⟩, 0, false, 0, 0, none⟩

/-- Integer cube root, used to derive the SHA-512 round constants from the
fractional parts of cube roots of primes as FIPS 180-4 specifies them. -/
def icbrt (n : Nat) : Nat :=
  if h : n = 0 then 0
  else
    let r := 2 * icbrt (n / 8)
    if (r + 1) ^ 3 ≤ n then r + 1 else r
termination_by n
decreasing_by exact Nat.div_lt_self (Nat.pos_of_ne_zero h) (by norm_num)

/-- Primality by trial division, for listing the primes that seed the SHA-512
constants. -/
def isPrimeNat (n : Nat) : Bool :=
  decide (2 ≤ n) && ((List.range n).all fun d => decide (d < 2) || decide (n % d ≠ 0))

/-- The first `k` primes (all needed ones are below 500). -/
def firstPrimes (k : Nat) : List Nat :=
  ((List.range 500).filter isPrimeNat).take k

/-- First 64 bits of the fractional part of the cube root of `p`. -/
def cbrtFrac64 (p : Nat) : Nat := icbrt (p * 2 ^ 192) % 2 ^ 64

/-- First 64 bits of the fractional part of the square root of `p`. -/
def sqrtFrac64 (p : Nat) : Nat := Nat.sqrt (p * 2 ^ 128) % 2 ^ 64

/-- Modelled from the spec: the keyed 512-bit digest of the external `sha2`
crate.  SHA-512 round constants — the first 64 bits of the fractional parts
of the cube roots of the first eighty primes (FIPS 180-4 §4.2.3). -/
def K512 : List Nat := (firstPrimes 80).map cbrtFrac64

/-- SHA-512 initial hash value — fractional parts of the square roots of the
first eight primes (FIPS 180-4 §5.3.5). -/
def H512 : List Nat := (firstPrimes 8).map sqrtFrac64

/-- All 64-bit words are naturals reduced modulo `2 ^ 64`. -/
def w64mask : Nat := 2 ^ 64 - 1

/-- Addition modulo `2 ^ 64`. -/
def add64 (a b : Nat) : Nat := (a + b) % 2 ^ 64

/-- Right rotation of a 64-bit word. -/
def rotr64 (n x : Nat) : Nat := (x >>> n) ||| ((x <<< (64 - n)) &&& w64mask)

/-- FIPS 180-4 upper-case Sigma-0 function. -/
def bigSigma0 (x : Nat) : Nat := rotr64 28 x ^^^ rotr64 34 x ^^^ rotr64 39 x

/-- FIPS 180-4 upper-case Sigma-1 function. -/
def bigSigma1 (x : Nat) : Nat := rotr64 14 x ^^^ rotr64 18 x ^^^ rotr64 41 x

/-- FIPS 180-4 lower-case sigma-0 function. -/
def smallSigma0 (x : Nat) : Nat := rotr64 1 x ^^^ rotr64 8 x ^^^ (x >>> 7)

/-- FIPS 180-4 lower-case sigma-1 function. -/
def smallSigma1 (x : Nat) : Nat := rotr64 19 x ^^^ rotr64 61 x ^^^ (x >>> 6)

/-- FIPS 180-4 choose function. -/
def chF (x y z : Nat) : Nat := (x &&& y) ^^^ ((x ^^^ w64mask) &&& z)

/-- FIPS 180-4 majority function. -/
def majF (x y z : Nat) : Nat := (x &&& y) ^^^ (x &&& z) ^^^ (y &&& z)

/-- Big-endian byte rendering of `n` on `k` bytes. -/
def toBytesBE (k n : Nat) : List Nat :=
  (List.range k).map fun i => (n >>> (8 * (k - 1 - i))) &&& 255

/-- Big-endian word from bytes. -/
def wordBE (bs : List Nat) : Nat := bs.foldl (fun a b => a * 256 + b) 0

/-- SHA padding: a `0x80` byte, zeros up to 112 modulo 128, then the bit
length on 16 bytes. -/
def padMessage (msg : List Nat) : List Nat :=
  let z := (112 + 128 - (msg.length + 1) % 128) % 128
  msg ++ [128] ++ List.replicate z 0 ++ toBytesBE 16 (8 * msg.length)

/-- Split a list into consecutive chunks of size `k`. -/
def chunks {α : Type} (k : Nat) (l : List α) : List (List α) :=
  match l with
  | [] => []
  | x :: rest =>
      if h : k = 0 then []
      else (x :: rest).take k :: chunks k ((x :: rest).drop k)
termination_by l.length
decreasing_by
  have hk : 0 < k := Nat.pos_of_ne_zero h
  simp only [List.length_drop, List.length_cons]
  omega

/-- The sixteen 64-bit words of one 128-byte block. -/
def blockWords (block : List Nat) : List Nat :=
  (List.range 16).map fun i => wordBE ((block.drop (8 * i)).take 8)

/-- The 80-entry message schedule (FIPS 180-4 §6.4.2 step 1). -/
def extendSchedule (w16 : List Nat) : List Nat :=
  (List.range 64).foldl
    (fun w i =>
      w ++ [add64 (add64 (smallSigma1 (w.getD (i + 14) 0)) (w.getD (i + 9) 0))
        (add64 (smallSigma0 (w.getD (i + 1) 0)) (w.getD i 0))])
    w16

/-- One SHA-512 compression round over the eight working variables. -/
def sha512Round (st : List Nat) (kw : Nat × Nat) : List Nat :=
  match st with
  | [a, b, c, d, e, f, g, hh] =>
      let t1 := add64 (add64 (add64 hh (bigSigma1 e)) (add64 (chF e f g) kw.1)) kw.2
      let t2 := add64 (bigSigma0 a) (majF a b c)
      [add64 t1 t2, a, b, c, add64 d t1, e, f, g]
  | other => other

/-- Compress one 128-byte block into the running hash (FIPS 180-4 §6.4.2). -/
def compressBlock (h : List Nat) (block : List Nat) : List Nat :=
  let w := extendSchedule (blockWords block)
  let st := (K512.zip w).foldl sha512Round h
  List.zipWith add64 h st

/-- SHA-512 of a byte sequence, as a 64-byte digest. -/
def sha512 (msg : List Nat) : List Nat :=
  let hFinal := (chunks 128 (padMessage msg)).foldl compressBlock H512
  hFinal.foldr (fun wrd acc => toBytesBE 8 wrd ++ acc) []

/-- Modelled from the spec: the external `hmac` crate's HMAC construction
(RFC 2104) instantiated with SHA-512 and its 128-byte block size. -/
def hmacSha512 (key msg : List Nat) : List Nat :=
  let key1 := if 128 < key.length then sha512 key else key
  let key0 := key1 ++ List.replicate (128 - key1.length) 0
  let ipadKey := key0.map fun b => b ^^^ 54
  let opadKey := key0.map fun b => b ^^^ 92
  sha512 (opadKey ++ sha512 (ipadKey ++ msg))

/-- Lower-case hexadecimal digit. -/
def hexDigitChar (n : Nat) : Char :=
  if n < 10 then Char.ofNat (48 + n) else Char.ofNat (87 + n)

/-- Two lower-case hex digits of one byte. -/
def byteHex (b : Nat) : String :=
  String.mk [hexDigitChar (b / 16 % 16), hexDigitChar (b % 16)]

/-- Lower-case hex encoding of a byte sequence (`hex::encode`). -/
def hexEncode (bs : List Nat) : String := String.join (bs.map byteHex)

/-- UTF-8 bytes of a string (`str::as_bytes`). -/
def strBytes (s : String) : List Nat := s.toUTF8.toList.map UInt8.toNat

/-- `GateIOAccount::create_signature` (src/main.rs lines 127-137): HMAC-SHA512
keyed with the api secret over `format!("api\n{}\n{}\n{}", channel,
request_param, ts)`, hex encoded. -/
def create_signature (api_secret channel request_param : String) (ts : Nat) : String :=
  let sign_string := "api" ++ "\n" ++ channel ++ "\n" ++ request_param ++ "\n" ++ toString ts
  hexEncode (hmacSha512 (strBytes api_secret) (strBytes sign_string))

/-- Modelled from the spec: the Authenticator contract — a keyed 512-bit HMAC
digest over the exact byte sequence
`"api\n" + channel + "\n" + request_param + "\n" + timestamp`, hex encoded. -/
def signatureSpec (secret channel request_param : String) (ts : Nat) : String :=
  hexEncode (hmacSha512 (strBytes secret)
    (strBytes ("api\n" ++ (channel ++ ("\n" ++ (request_param ++ ("\n" ++ Nat.repr ts)))))))

/-- The empty correlation state, as built by `GateIOAccount::new`. -/
def emptyTracker : Tracker := ⟨[], [], []⟩

/-- Sample successful authentication response (header shape). -/
def loginOkMsg : J :=
  J.obj [("header", J.obj [("channel", J.str "spot.login"), ("event", J.str "api"),
    ("status", J.str "200")])]

/-- Sample rejected authentication response (header shape). -/
def loginFailMsg : J :=
  J.obj [("header", J.obj [("channel", J.str "spot.login"), ("event", J.str "api"),
    ("status", J.str "401")])]

/-- Sample order acknowledgment frame with a given status and request id. -/
def ackMsg (status req : String) : J :=
  J.obj [("header", J.obj [("channel", J.str "spot.order_place"), ("event", J.str "api"),
    ("status", J.str status), ("request_id", J.str req)])]

/-- Sample book-ticker update frame with a given ask string. -/
def tickMsg (ask : String) : J :=
  J.obj [("channel", J.str "spot.book_ticker"), ("event", J.str "update"),
    ("result", J.obj [("s", J.str "ALCH_USDT"), ("a", J.str ask)])]

/-- A sequence of book-ticker bodies applied directly to already-parsed ask
prices with their arrival times. -/
def runUpdates (s : SysState) (us : List (ℚ × Nat)) : SysState :=
  us.foldl (fun st u => book_ticker_update st u.1 u.2) s

/-- A quiet stretch of updates: each price is within the 0.001 threshold of
the immediately preceding stored price, and each arrival is within the
5-unit window of the (unchanging) last display instant. -/
def quietSeq : ℚ → Nat → List (ℚ × Nat) → Bool
  | _, _, [] => true
  | p0, lp, (p, t) :: rest =>
      decide (|p - p0| ≤ (0.001 : ℚ)) && decide (t - lp ≤ 5) && quietSeq p lp rest

/-- A market state that already stored an ask of 5. -/
def priceState : SysState := { initState with share_price := ⟨some 5, some 0, true⟩ }

/-- A market state that stored and displayed an ask of 100 at time 0. -/
def dispState : SysState :=
  { initState with
    share_price := ⟨some 100, some 0, true⟩
    displays := 1
    last_displayed := some 100 }

/-- An initial tick of 100 at time 0. -/
def tickEvs1 : List Ev := [Ev.marketMsg (tickMsg "100") 0]

/-- Four follow-up ticks, all within 0.001 of the last displayed price at
their arrival and within one 5-unit window. -/
def tickEvs2 : List Ev :=
  [Ev.marketMsg (tickMsg "100.0008") 1, Ev.marketMsg (tickMsg "99.9992") 2,
   Ev.marketMsg (tickMsg "100") 3, Ev.marketMsg (tickMsg "99.9985") 4]

/-- State after the initial tick of 100. -/
def cexS1 : SysState :=
  { initState with
    share_price := ⟨some 100, some 0, true⟩
    displays := 1
    last_print := 0
    last_displayed := some 100 }

/-- State after the quiet tick 100.0008. -/
def cexS2 : SysState := { cexS1 with share_price := ⟨some 100.0008, some 1, true⟩ }

/-- State after the tick 99.9992, which prints again. -/
def cexS3 : SysState :=
  { cexS2 with
    share_price := ⟨some 99.9992, some 2, true⟩
    displays := 2
    last_print := 2
    last_displayed := some 99.9992 }

/-- State after the quiet tick back to 100. -/
def cexS4 : SysState := { cexS3 with share_price := ⟨some 100, some 3, true⟩ }

/-- State after the tick 99.9985, which prints a third time. -/
def cexS5 : SysState :=
  { cexS4 with
    share_price := ⟨some 99.9985, some 4, true⟩
    displays := 3
    last_print := 4
    last_displayed := some 99.9985 }

/-!  Theorems.  The association-list lemmas and `handle_message` routing
lemmas are shared helpers; each claim is settled by a single theorem below
them. -/

@[simp] theorem lookupA_insert_self {α : Type} (l : List (String × α)) (k : String) (v : α) :
    lookupA (insertA l k v) k = some v := by
  simp [insertA, lookupA]

theorem lookupA_removeA {α : Type} (l : List (String × α)) (k k' : String) :
    lookupA (removeA l k) k' = if k' = k then none else lookupA l k' := by
  induction l with
  | nil => simp [removeA, lookupA]
  | cons hd tl ih =>
      obtain ⟨k0, v0⟩ := hd
      by_cases h1 : k = k0
      · subst h1
        by_cases h2 : k' = k
        · subst h2
          simp [removeA, lookupA, ih]
        · simp [removeA, lookupA, h2, ih]
      · have h1' : ¬k0 = k := fun hh => h1 hh.symm
        by_cases h2 : k' = k0
        · have hne : ¬k' = k := fun hh => h1 (by rw [← hh, h2])
          simp [removeA, lookupA, h1, h1', h2, hne]
        · simp [removeA, lookupA, h1, h1', h2, ih]

@[simp] theorem lookupA_removeA_self {α : Type} (l : List (String × α)) (k : String) :
    lookupA (removeA l k) k = none := by
  simp [lookupA_removeA]

theorem lookupA_insert_ne {α : Type} (l : List (String × α)) (k k' : String) (v : α)
    (h : k' ≠ k) : lookupA (insertA l k v) k' = lookupA l k' := by
  simp [insertA, lookupA, h, lookupA_removeA]

theorem handle_message_login_eq (authenticated : Bool) (tr : Tracker) (msg : J) (t : Nat)
    (hc : strField msg "channel" "" = "spot.login")
    (he : strField msg "event" "" = "api") :
    handle_message authenticated tr msg t =
      (if strField msg "status" "" = "200" then ⟨true, tr, none, none⟩
       else ⟨authenticated, tr, none, none⟩) := by
  simp only [handle_message, hc, he]
  simp

theorem handle_message_order_eq (authenticated : Bool) (tr : Tracker) (msg : J) (t : Nat)
    (hc : strField msg "channel" "" = "spot.order_place")
    (he : strField msg "event" "" = "api") :
    handle_message authenticated tr msg t =
      observe_order_response authenticated tr (strField msg "request_id" "")
        (strField msg "status" "unknown") t := by
  simp only [handle_message, hc, he]
  simp

/-- Claim C5: for every frame routed to the authentication-response handler
(channel "spot.login", event "api"), the shared authenticated flag ends up
true exactly when the extracted status (header first, then root) is the
string "200" or the flag was already true; for any other status, including a
missing one, the handler does not write true — the flag keeps its previous
value. -/
theorem auth_flag_set_iff_status_200 (authenticated : Bool) (tr : Tracker) (msg : J) (t : Nat)
    (hc : strField msg "channel" "" = "spot.login")
    (he : strField msg "event" "" = "api") :
    ((handle_message authenticated tr msg t).authenticated = true ↔
      (strField msg "status" "" = "200" ∨ authenticated = true)) ∧
    (strField msg "status" "" ≠ "200" →
      (handle_message authenticated tr msg t).authenticated = authenticated) := by
  rw [handle_message_login_eq authenticated tr msg t hc he]
  constructor
  · by_cases hs : strField msg "status" "" = "200" <;> simp [hs]
  · intro hs
    simp [hs]

/-- Witness for C5: a concrete "200" login response flips the flag from false
to true, and a concrete "401" response leaves it false. -/
theorem auth_flag_set_iff_status_200_witness :
    (handle_message false emptyTracker loginOkMsg 3).authenticated = true ∧
    (handle_message false emptyTracker loginFailMsg 3).authenticated = false := by
  have h200 := auth_flag_set_iff_status_200 false emptyTracker loginOkMsg 3 (by rfl) (by rfl)
  have h401 := auth_flag_set_iff_status_200 false emptyTracker loginFailMsg 3 (by rfl) (by rfl)
  exact ⟨h200.1.mpr (Or.inl (by rfl)), h401.2 (by decide)⟩

/-- Claim C4: an order acknowledgment whose request id has no pending entry
(never begun or already retired) is a complete no-op — nothing recorded, no
summary, all three maps unchanged. -/
theorem untracked_ack_is_noop (authenticated : Bool) (tr : Tracker) (msg : J) (t : Nat)
    (req : String)
    (hc : strField msg "channel" "" = "spot.order_place")
    (he : strField msg "event" "" = "api")
    (hr : strField msg "request_id" "" = req)
    (hnone : lookupA tr.sent_time_map req = none) :
    handle_message authenticated tr msg t = ⟨authenticated, tr, none, none⟩ := by
  rw [handle_message_order_eq authenticated tr msg t hc he, hr]
  unfold observe_order_response
  by_cases hreq : req = ""
  · simp [hreq]
  · simp [hreq, hnone]

/-- Witness for C4: an acknowledgment for an id that was never begun leaves
the empty tracker untouched. -/
theorem untracked_ack_is_noop_witness :
    handle_message true emptyTracker (ackMsg "201" "77") 9 = ⟨true, emptyTracker, none, none⟩ :=
  untracked_ack_is_noop true emptyTracker (ackMsg "201" "77") 9 "77"
    (by rfl) (by rfl) (by rfl) (by rfl)

/-- Claim C3: a pending entry is retired exactly when, counting the current
acknowledgment, two or more have been received, or the status is "201" or
"400"; a first acknowledgment with any other status leaves the entry pending
(same send time, count recorded, no summary emitted). -/
theorem retirement_policy (authenticated : Bool) (tr : Tracker) (msg : J)
    (t t0 : Nat) (req status : String)
    (hc : strField msg "channel" "" = "spot.order_place")
    (he : strField msg "event" "" = "api")
    (hr : strField msg "request_id" "" = req)
    (hs : strField msg "status" "unknown" = status)
    (hreq : req ≠ "")
    (hpend : lookupA tr.sent_time_map req = some t0) :
    (lookupA (handle_message authenticated tr msg t).tracker.sent_time_map req = none ↔
      (2 ≤ (lookupA tr.response_count req).getD 0 + 1 ∨ status = "201" ∨ status = "400")) ∧
    (¬(2 ≤ (lookupA tr.response_count req).getD 0 + 1 ∨ status = "201" ∨ status = "400") →
      lookupA (handle_message authenticated tr msg t).tracker.sent_time_map req = some t0 ∧
      lookupA (handle_message authenticated tr msg t).tracker.response_count req =
        some ((lookupA tr.response_count req).getD 0 + 1) ∧
      (handle_message authenticated tr msg t).summary = none) := by
  rw [handle_message_order_eq authenticated tr msg t hc he, hr, hs]
  unfold observe_order_response
  simp only [hreq, hpend, if_neg hreq]
  by_cases hcond : 2 ≤ (lookupA tr.response_count req).getD 0 + 1 ∨ status = "201" ∨ status = "400"
  · rw [if_pos hcond]
    have hcond1 : 1 ≤ (lookupA tr.response_count req).getD 0 ∨ status = "201" ∨ status = "400" := by
      rcases hcond with h | h
      · exact Or.inl (by omega)
      · exact Or.inr h
    exact ⟨by simp [hcond1], fun hn => absurd hcond hn⟩
  · rw [if_neg hcond]
    refine ⟨?_, fun _ => ⟨hpend, lookupA_insert_self _ _ _, rfl⟩⟩
    push_neg at hcond
    obtain ⟨h1, h2, h3⟩ := hcond
    simp [hpend]
    exact ⟨by omega, h2, h3⟩

/-- Witness for C3: on a pending entry with no prior acknowledgment, a first
acknowledgment with the neutral status "ok" does not retire the entry, while
the iff direction certifies that the entry is still tracked. -/
theorem retirement_policy_witness :
    lookupA (handle_message true (trackerBegin emptyTracker "9" 4) (ackMsg "ok" "9") 6).tracker.sent_time_map "9" = some 4 ∧
    (handle_message true (trackerBegin emptyTracker "9" 4) (ackMsg "ok" "9") 6).summary = none := by
  have h := retirement_policy true (trackerBegin emptyTracker "9" 4) (ackMsg "ok" "9") 6 4 "9" "ok"
    (by rfl) (by rfl) (by rfl) (by rfl) (by decide) (by rfl)
  have h2 := h.2 (by decide)
  exact ⟨h2.1, h2.2.2⟩

/-- Claim C8: `create_order` with the flag unset or a non-positive quantity
or price is a silent no-op that still succeeds — no frame is produced and no
tracking entry is created; with valid parameters the frame carries the
lowercased side, type and time-in-force and the amount and price rendered as
strings, and tracking begins. -/
theorem create_order_validation (authenticated : Bool) (tr : Tracker)
    (side symbol : String) (quantity price : ℚ) (order_type time_in_force : String)
    (ts : Nat) (req_id : String) (send_time : Nat) :
    ((¬authenticated = true ∨ quantity ≤ 0 ∨ price ≤ 0) →
      create_order authenticated tr side symbol quantity price order_type time_in_force
        ts req_id send_time = (none, tr)) ∧
    ((authenticated = true ∧ 0 < quantity ∧ 0 < price) →
      create_order authenticated tr side symbol quantity price order_type time_in_force
        ts req_id send_time =
        (some ⟨ts, "spot.order_place", "api", req_id, symbol, side.toLower,
          order_type.toLower, toString quantity, toString price, time_in_force.toLower⟩,
         trackerBegin tr req_id send_time)) := by
  constructor
  · intro h
    simp only [create_order]
    rw [if_pos h]
  · rintro ⟨h1, h2, h3⟩
    have hg : ¬(¬authenticated = true ∨ quantity ≤ 0 ∨ price ≤ 0) := by
      push_neg
      exact ⟨h1, h2, h3⟩
    simp only [create_order]
    rw [if_neg hg]

/-- Witness for C8: with the flag unset the call is a no-op on the empty
tracker; with the flag set and the source's constants (BUY 50 at ask 100)
the frame is built lowercased and stringified and tracking begins. -/
theorem create_order_validation_witness :
    create_order false emptyTracker "BUY" "alch_usdt" 50 100 "limit" "gtc" 7 "42" 3 =
      (none, emptyTracker) ∧
    create_order true emptyTracker "BUY" "alch_usdt" 50 100 "limit" "gtc" 7 "42" 3 =
      (some ⟨7, "spot.order_place", "api", "42", "alch_usdt", "BUY".toLower, "limit".toLower,
        toString (50 : ℚ), toString (100 : ℚ), "gtc".toLower⟩,
       trackerBegin emptyTracker "42" 3) := by
  constructor
  · exact (create_order_validation false emptyTracker "BUY" "alch_usdt" 50 100 "limit" "gtc"
      7 "42" 3).1 (by simp)
  · exact (create_order_validation true emptyTracker "BUY" "alch_usdt" 50 100 "limit" "gtc"
      7 "42" 3).2 ⟨rfl, by norm_num, by norm_num⟩

/-- Claim C9: `create_signature` is exactly the lowercase hex encoding of
HMAC-SHA512, keyed with the api secret bytes, of the byte sequence
"api\n" + channel + "\n" + request_param + "\n" + decimal ts (the
`signatureSpec` contract), and it is a pure function: identical inputs give
identical output. -/
theorem create_signature_correct (api_secret channel request_param : String) (ts : Nat) :
    create_signature api_secret channel request_param ts =
      signatureSpec api_secret channel request_param ts ∧
    (∀ s2 c2 p2 t2, s2 = api_secret → c2 = channel → p2 = request_param → t2 = ts →
      create_signature s2 c2 p2 t2 = create_signature api_secret channel request_param ts) := by
  constructor
  · unfold create_signature signatureSpec
    have hmsg : "api" ++ "\n" ++ channel ++ "\n" ++ request_param ++ "\n" ++ toString ts =
        "api\n" ++ (channel ++ ("\n" ++ (request_param ++ ("\n" ++ Nat.repr ts)))) := by
      have h1 : toString ts = Nat.repr ts := rfl
      rw [h1, String.append_assoc, String.append_assoc, String.append_assoc,
        String.append_assoc]
      rfl
    rw [hmsg]
  · rintro s2 c2 p2 t2 rfl rfl rfl rfl
    rfl

/-- Witness for C9: the contract instantiated at concrete inputs. -/
theorem create_signature_correct_witness :
    create_signature "secret" "spot.login" "" 1700000000 =
      signatureSpec "secret" "spot.login" "" 1700000000 ∧
    create_signature "secret" "spot.login" "" 1700000000 =
      create_signature "secret" "spot.login" "" 1700000000 := by
  have h := create_signature_correct "secret" "spot.login" "" 1700000000
  exact ⟨h.1, h.2 "secret" "spot.login" "" 1700000000 rfl rfl rfl rfl⟩

/-- Claim C2: for a pending entry begun at `t0` (send time recorded, zero
acknowledgments), a first tracked acknowledgment at `t1` records latency
`t1 - t0` under `response_1`; a second at `t2` records `t2 - t0` under
`response_2`, and the emitted summary's pairwise delta is
`(t2 - t0) - (t1 - t0) = t2 - t1`.  The first acknowledgment must carry a
non-terminal status: a `"201"`/`"400"` status retires the entry at once and
no second observation would be recorded. -/
theorem correlation_latencies (auth1 auth2 : Bool) (tr : Tracker) (req : String)
    (t0 t1 t2 : Nat) (msg1 msg2 : J)
    (hreq : req ≠ "") (h01 : t0 ≤ t1) (h12 : t1 ≤ t2)
    (hc1 : strField msg1 "channel" "" = "spot.order_place")
    (he1 : strField msg1 "event" "" = "api")
    (hr1 : strField msg1 "request_id" "" = req)
    (hs1 : strField msg1 "status" "unknown" ≠ "201")
    (hs2 : strField msg1 "status" "unknown" ≠ "400")
    (hc2 : strField msg2 "channel" "" = "spot.order_place")
    (he2 : strField msg2 "event" "" = "api")
    (hr2 : strField msg2 "request_id" "" = req) :
    (handle_message auth1 (trackerBegin tr req t0) msg1 t1).observed = some (1, t1 - t0) ∧
    lookupA ((lookupA (handle_message auth1 (trackerBegin tr req t0) msg1 t1).tracker.response_times
      req).getD []) "response_1" = some (t1 - t0) ∧
    (handle_message auth2 (handle_message auth1 (trackerBegin tr req t0) msg1 t1).tracker
      msg2 t2).observed = some (2, t2 - t0) ∧
    (handle_message auth2 (handle_message auth1 (trackerBegin tr req t0) msg1 t1).tracker
      msg2 t2).summary =
      some ⟨some (t1 - t0), some (t2 - t0), some ((t2 : Int) - (t1 : Int)), 2⟩ := by
  have hdiff : ((t2 - t0 : ℕ) : ℤ) - ((t1 - t0 : ℕ) : ℤ) = (t2 : ℤ) - (t1 : ℤ) := by omega
  have hkey1 : ("response_" ++ toString (1 : ℕ)) = "response_1" := rfl
  have hkey2 : ("response_" ++ toString (2 : ℕ)) = "response_2" := rfl
  have hr1ne : lookupA (insertA (insertA ([] : List (String × Nat)) "response_1" (t1 - t0))
      "response_2" (t2 - t0)) "response_1" = some (t1 - t0) := by
    rw [lookupA_insert_ne _ _ _ _ (by decide)]
    exact lookupA_insert_self _ _ _
  have hr2e : lookupA (insertA (insertA ([] : List (String × Nat)) "response_1" (t1 - t0))
      "response_2" (t2 - t0)) "response_2" = some (t2 - t0) :=
    lookupA_insert_self _ _ _
  have e1 : handle_message auth1 (trackerBegin tr req t0) msg1 t1 =
      ⟨auth1, ⟨insertA tr.sent_time_map req t0,
        insertA (insertA tr.response_count req 0) req 1,
        insertA (insertA tr.response_times req []) req
          (insertA [] "response_1" (t1 - t0))⟩,
       some (1, t1 - t0), none⟩ := by
    rw [handle_message_order_eq auth1 _ msg1 t1 hc1 he1, hr1]
    unfold observe_order_response
    simp [hreq, trackerBegin, hs1, hs2, hkey1]
  rw [e1]
  have e2 : handle_message auth2
      (⟨insertA tr.sent_time_map req t0,
        insertA (insertA tr.response_count req 0) req 1,
        insertA (insertA tr.response_times req []) req
          (insertA [] "response_1" (t1 - t0))⟩ : Tracker)
      msg2 t2 =
      ⟨auth2, ⟨removeA (insertA tr.sent_time_map req t0) req,
        removeA (insertA (insertA (insertA tr.response_count req 0) req 1) req 2) req,
        removeA (insertA (insertA (insertA tr.response_times req []) req
          (insertA [] "response_1" (t1 - t0))) req
          (insertA (insertA [] "response_1" (t1 - t0)) "response_2" (t2 - t0))) req⟩,
       some (2, t2 - t0),
       some ⟨some (t1 - t0), some (t2 - t0),
         some (((t2 - t0 : ℕ) : ℤ) - ((t1 - t0 : ℕ) : ℤ)), 2⟩⟩ := by
    rw [handle_message_order_eq auth2 _ msg2 t2 hc2 he2, hr2]
    unfold observe_order_response
    simp [hreq, hkey2, hr1ne, hr2e]
  rw [e2]
  refine ⟨rfl, ?_, rfl, ?_⟩
  · simp
  · rw [hdiff]

/-- Witness for C2: the spec's end-to-end scenario — acknowledgments with
statuses "unsolicited-ack" then "201" at 5 and 47 units after submission
yield latencies 5 and 47 and a delta of 42, then the entry is retired. -/
theorem correlation_latencies_witness :
    (handle_message true (trackerBegin emptyTracker "5" 10) (ackMsg "unsolicited-ack" "5") 15).observed =
      some (1, 5) ∧
    (handle_message true
      (handle_message true (trackerBegin emptyTracker "5" 10) (ackMsg "unsolicited-ack" "5") 15).tracker
      (ackMsg "201" "5") 57).summary =
      some ⟨some 5, some 47, some 42, 2⟩ := by
  have h := correlation_latencies true true emptyTracker "5" 10 15 57
    (ackMsg "unsolicited-ack" "5") (ackMsg "201" "5")
    (by decide) (by decide) (by decide)
    (by rfl) (by rfl) (by rfl) (by decide) (by decide) (by rfl) (by rfl) (by rfl)
  exact ⟨h.1, h.2.2.2⟩

theorem observe_preserves_auth (authenticated : Bool) (tr : Tracker)
    (req status : String) (t : Nat) :
    (observe_order_response authenticated tr req status t).authenticated = authenticated := by
  unfold observe_order_response
  dsimp only
  split
  · rfl
  · split
    · rfl
    · split <;> rfl

theorem handle_message_auth_true (authenticated : Bool) (tr : Tracker) (msg : J) (t : Nat)
    (h : authenticated = true) : (handle_message authenticated tr msg t).authenticated = true := by
  unfold handle_message
  dsimp only
  split
  · split <;> simp [h]
  · split
    · exact h
    · split
      · rw [observe_preserves_auth]
        exact h
      · exact h

theorem market_step_preserves_auth (s : SysState) (data : J) (now : Nat) :
    (market_step s data now).authenticated = s.authenticated := by
  unfold market_step book_ticker_update
  split
  · split
    · split
      · split <;> rfl
      · rfl
    · rfl
  · rfl

theorem step_auth_mono (s : SysState) (e : Ev) (hp : e.isProgramEvent = true)
    (h : s.authenticated = true) : (step s e).authenticated = true := by
  cases e with
  | tradingMsg msg now => exact handle_message_auth_true s.authenticated s.tracker msg now h
  | marketMsg msg now =>
      show (market_step s msg now).authenticated = true
      rw [market_step_preserves_auth]
      exact h
  | setAuth b => simp [Ev.isProgramEvent] at hp

/-- Claim C10: the `authenticated` flag is monotone under all program
actions — the market loop never writes it and the trading handler only ever
writes `true` — so once a handshake has succeeded it stays true for the rest
of the process, across reconnects and failed re-authentications alike. -/
theorem authenticated_flag_monotone (s : SysState) (evs : List Ev)
    (hprog : ∀ e ∈ evs, e.isProgramEvent = true) (h : s.authenticated = true) :
    (run s evs).authenticated = true := by
  induction evs generalizing s with
  | nil => exact h
  | cons e rest ih =>
      exact ih (step s e) (fun x hx => hprog x (List.mem_cons_of_mem e hx))
        (step_auth_mono s e (hprog e (List.mem_cons_self e rest)) h)

/-- Witness for C10: after the flag is true, a failed re-authentication and a
further market tick leave it true. -/
theorem authenticated_flag_monotone_witness :
    (run { initState with authenticated := true }
      [Ev.tradingMsg loginFailMsg 1, Ev.marketMsg (tickMsg "abc") 2]).authenticated = true := by
  exact authenticated_flag_monotone { initState with authenticated := true }
    [Ev.tradingMsg loginFailMsg 1, Ev.marketMsg (tickMsg "abc") 2] (by decide) (by rfl)

theorem market_step_placed_of_placed (s : SysState) (data : J) (now : Nat)
    (h : s.order_placed = true) :
    (market_step s data now).order_placed = true ∧
    (market_step s data now).orders_spawned = s.orders_spawned := by
  unfold market_step book_ticker_update
  split
  · split
    · split
      · simp [h]
      · exact ⟨h, rfl⟩
    · exact ⟨h, rfl⟩
  · exact ⟨h, rfl⟩

theorem step_placed_of_placed (s : SysState) (e : Ev) (h : s.order_placed = true) :
    (step s e).order_placed = true ∧ (step s e).orders_spawned = s.orders_spawned := by
  cases e with
  | tradingMsg msg now => exact ⟨h, rfl⟩
  | marketMsg msg now => exact market_step_placed_of_placed s msg now h
  | setAuth b => exact ⟨h, rfl⟩

theorem run_placed_of_placed (evs : List Ev) (s : SysState) (h : s.order_placed = true) :
    (run s evs).order_placed = true ∧ (run s evs).orders_spawned = s.orders_spawned := by
  induction evs generalizing s with
  | nil => exact ⟨h, rfl⟩
  | cons e rest ih =>
      have hs := step_placed_of_placed s e h
      have h2 := ih (step s e) hs.1
      exact ⟨h2.1, h2.2.trans hs.2⟩

theorem step_spawn_inv (s : SysState) (e : Ev)
    (h : s.orders_spawned = if s.order_placed = true then 1 else 0) :
    (step s e).orders_spawned = if (step s e).order_placed = true then 1 else 0 := by
  cases e with
  | tradingMsg msg now => exact h
  | setAuth b => exact h
  | marketMsg msg now =>
      show (market_step s msg now).orders_spawned =
        if (market_step s msg now).order_placed = true then 1 else 0
      by_cases hp : s.order_placed = true
      · have hm := market_step_placed_of_placed s msg now hp
        rw [hm.2, hm.1, h, hp]
      · have hp' : s.order_placed = false := by
          cases hb : s.order_placed
          · rfl
          · exact absurd hb hp
        unfold market_step book_ticker_update
        split
        · split
          · split
            · split
              · rename_i hfire
                simp only [hp', Bool.and_eq_true, Bool.not_eq_true'] at hfire
                simp [h, hp']
              · simp [h, hp']
            · simp [h, hp']
          · simp [h, hp']
        · simp [h, hp']

theorem run_spawn_inv (evs : List Ev) (s : SysState)
    (h : s.orders_spawned = if s.order_placed = true then 1 else 0) :
    (run s evs).orders_spawned = if (run s evs).order_placed = true then 1 else 0 := by
  induction evs generalizing s with
  | nil => exact h
  | cons e rest ih => exact ih (step s e) (step_spawn_inv s e h)

/-- Claim C1: over any interleaving of market-data updates with trading
messages and arbitrary writes to the shared authenticated flag, the order
task is spawned at most once per process lifetime; moreover once
`order_placed` is true it stays true and no later event spawns another
task. -/
theorem order_task_spawned_at_most_once (evs extra : List Ev) :
    (run initState evs).orders_spawned ≤ 1 ∧
    ((run initState evs).order_placed = true →
      (run initState (evs ++ extra)).order_placed = true ∧
      (run initState (evs ++ extra)).orders_spawned = (run initState evs).orders_spawned) := by
  constructor
  · have h := run_spawn_inv evs initState (by rfl)
    rw [h]
    split <;> omega
  · intro h
    have happ : run initState (evs ++ extra) = run (run initState evs) extra := by
      simp [run, List.foldl_append]
    rw [happ]
    exact run_placed_of_placed extra (run initState evs) h

theorem book_ticker_fire (s : SysState) (p : ℚ) (now : Nat)
    (hplaced : s.order_placed = false) (hpos : (0 : ℚ) < p) (hauth : s.authenticated = true) :
    (book_ticker_update s p now).order_placed = true := by
  unfold book_ticker_update
  simp [hplaced, hauth, decide_eq_true hpos]

/-- Witness for C1: an authentication flip followed by a qualifying tick
fires the trigger; a further qualifying tick spawns nothing more. -/
theorem order_task_spawned_at_most_once_witness :
    (run initState [Ev.setAuth true, Ev.marketMsg (tickMsg "100.5") 0]).order_placed = true ∧
    (run initState ([Ev.setAuth true, Ev.marketMsg (tickMsg "100.5") 0] ++
      [Ev.marketMsg (tickMsg "100.5") 1])).orders_spawned =
      (run initState [Ev.setAuth true, Ev.marketMsg (tickMsg "100.5") 0]).orders_spawned := by
  have hparse : (parseDecimal "100.5").getD 0 = (201 / 2 : ℚ) := by
    simp [parseDecimal, splitParts, digitsToNat]
    norm_num
  have hplaced : (run initState [Ev.setAuth true, Ev.marketMsg (tickMsg "100.5") 0]).order_placed
      = true := by
    show (book_ticker_update { initState with authenticated := true }
      ((parseDecimal "100.5").getD 0) 0).order_placed = true
    rw [hparse]
    exact book_ticker_fire _ _ _ rfl (by norm_num) rfl
  exact ⟨hplaced, ((order_task_spawned_at_most_once
    [Ev.setAuth true, Ev.marketMsg (tickMsg "100.5") 0]
    [Ev.marketMsg (tickMsg "100.5") 1]).2 hplaced).2⟩

theorem book_ticker_update_share (s : SysState) (p : ℚ) (now : Nat) :
    (book_ticker_update s p now).share_price = ⟨some p, some now, true⟩ := by
  unfold book_ticker_update
  dsimp only
  split <;> rfl

/-- Claim C6 counterexample: a book-ticker update for the subscribed pair
whose ask field is not a number does overwrite the shared price sample (with
0): the stored ask 5 is replaced, where the claim says the update is
ignored. -/
theorem parse_failure_counterexample :
    (market_step priceState (tickMsg "abc") 1).share_price.gia_mua_gate = some 0 ∧
    priceState.share_price.gia_mua_gate = some 5 := by
  refine ⟨?_, rfl⟩
  show (book_ticker_update priceState ((parseDecimal "abc").getD 0) 1).share_price.gia_mua_gate
    = some 0
  rw [book_ticker_update_share]
  rfl

theorem book_ticker_update_zero_no_fire (s : SysState) (now : Nat) :
    (book_ticker_update s 0 now).order_placed = s.order_placed ∧
    (book_ticker_update s 0 now).orders_spawned = s.orders_spawned := by
  unfold book_ticker_update
  have hd : decide ((0 : ℚ) < (0 : ℚ)) = false := decide_eq_false (lt_irrefl 0)
  simp [hd]

/-- Claim C6 amended: on a parse failure of the ask field the update is NOT
ignored — the ask defaults to 0, the shared sample is overwritten with 0 and
marked ready; trigger evaluation still runs but can never fire on such an
update (0 is not a positive price), so the trigger flag and spawn count are
unchanged. -/
theorem parse_failure_defaults_zero (s : SysState) (data result : J) (now : Nat)
    (hch : (jget data "channel").bind jstr = some "spot.book_ticker")
    (hev : (jget data "event").bind jstr = some "update")
    (hres : jget data "result" = some result)
    (hsym : (jget result "s").bind jstr = some pair)
    (ha : ((jget result "a").bind jstr).bind parseDecimal = none) :
    (market_step s data now).share_price.gia_mua_gate = some 0 ∧
    (market_step s data now).share_price.orderbook_ready = true ∧
    (market_step s data now).order_placed = s.order_placed ∧
    (market_step s data now).orders_spawned = s.orders_spawned := by
  have hm : market_step s data now = book_ticker_update s 0 now := by
    unfold market_step
    rw [if_pos ⟨hch, hev⟩, hres]
    dsimp only
    rw [if_pos hsym, ha]
    rfl
  rw [hm, book_ticker_update_share]
  exact ⟨rfl, rfl, (book_ticker_update_zero_no_fire s now).1,
    (book_ticker_update_zero_no_fire s now).2⟩

/-- Witness for C6 amended: the concrete non-numeric tick overwrites the
stored ask 5 with 0 and leaves the trigger state alone. -/
theorem parse_failure_defaults_zero_witness :
    (market_step priceState (tickMsg "abc") 1).share_price.gia_mua_gate = some 0 ∧
    (market_step priceState (tickMsg "abc") 1).orders_spawned = priceState.orders_spawned := by
  have h := parse_failure_defaults_zero priceState (tickMsg "abc")
    (J.obj [("s", J.str "ALCH_USDT"), ("a", J.str "abc")]) 1 rfl rfl rfl rfl rfl
  exact ⟨h.1, h.2.2.2⟩

theorem book_ticker_noauth_first (s : SysState) (p : ℚ) (now : Nat)
    (hauth : s.authenticated = false)
    (hp : s.share_price.gia_mua_gate = none) :
    book_ticker_update s p now =
      { s with
        share_price := ⟨some p, some now, true⟩
        displays := s.displays + 1
        last_print := now
        last_displayed := some p } := by
  unfold book_ticker_update
  simp [hp, hauth]

theorem book_ticker_noauth_quiet (s : SysState) (p p0 : ℚ) (now : Nat)
    (hauth : s.authenticated = false)
    (hp : s.share_price.gia_mua_gate = some p0)
    (hle : |p - p0| ≤ (0.001 : ℚ)) (ht : now - s.last_print ≤ 5) :
    book_ticker_update s p now = { s with share_price := ⟨some p, some now, true⟩ } := by
  unfold book_ticker_update
  simp [hp, hauth, decide_eq_false (not_lt.mpr hle), decide_eq_false (not_lt.mpr ht)]

theorem book_ticker_noauth_display (s : SysState) (p p0 : ℚ) (now : Nat)
    (hauth : s.authenticated = false)
    (hp : s.share_price.gia_mua_gate = some p0)
    (hgt : (0.001 : ℚ) < |p - p0|) :
    book_ticker_update s p now =
      { s with
        share_price := ⟨some p, some now, true⟩
        displays := s.displays + 1
        last_print := now
        last_displayed := some p } := by
  unfold book_ticker_update
  simp [hp, hauth, decide_eq_true hgt]

/-- Claim C7 counterexample: starting from the pristine state, the first tick
of 100 displays; the four follow-up ticks each stay within 0.001 of the
then-current last displayed price and all arrive within one 5-unit window of
every display, yet two further display events are emitted (displays go from
1 to 3): the throttle compares against the previous stored price, not the
last displayed price. -/
theorem display_throttle_counterexample :
    (run initState tickEvs1).displays = 1 ∧
    (run initState tickEvs1).last_displayed = some 100 ∧
    (run initState (tickEvs1 ++ List.take 1 tickEvs2)).last_displayed = some 100 ∧
    (run initState (tickEvs1 ++ List.take 2 tickEvs2)).last_displayed = some (99.9992 : ℚ) ∧
    (run initState (tickEvs1 ++ List.take 3 tickEvs2)).last_displayed = some (99.9992 : ℚ) ∧
    (run initState (tickEvs1 ++ tickEvs2)).displays = 3 ∧
    |(100.0008 : ℚ) - 100| ≤ 0.001 ∧ |(99.9992 : ℚ) - 100| ≤ 0.001 ∧
    |(100 : ℚ) - 99.9992| ≤ 0.001 ∧ |(99.9985 : ℚ) - 99.9992| ≤ 0.001 ∧
    (4 : ℕ) - 0 ≤ 5 := by
  have hp100 : (parseDecimal "100").getD 0 = (100 : ℚ) := by
    simp [parseDecimal, splitParts, digitsToNat]
  have hpa : (parseDecimal "100.0008").getD 0 = (100.0008 : ℚ) := by
    simp [parseDecimal, splitParts, digitsToNat]
    norm_num
  have hpb : (parseDecimal "99.9992").getD 0 = (99.9992 : ℚ) := by
    simp [parseDecimal, splitParts, digitsToNat]
    norm_num
  have hpc : (parseDecimal "99.9985").getD 0 = (99.9985 : ℚ) := by
    simp [parseDecimal, splitParts, digitsToNat]
    norm_num
  have h1 : run initState tickEvs1 = cexS1 := by
    show book_ticker_update initState ((parseDecimal "100").getD 0) 0 = cexS1
    rw [hp100, book_ticker_noauth_first initState 100 0 rfl rfl]
    rfl
  have h2 : run initState (tickEvs1 ++ List.take 1 tickEvs2) = cexS2 := by
    show market_step (run initState tickEvs1) (tickMsg "100.0008") 1 = cexS2
    rw [h1]
    show book_ticker_update cexS1 ((parseDecimal "100.0008").getD 0) 1 = cexS2
    rw [hpa, book_ticker_noauth_quiet cexS1 100.0008 100 1 rfl rfl
      (by norm_num [abs_le]) (by decide)]
    rfl
  have h3 : run initState (tickEvs1 ++ List.take 2 tickEvs2) = cexS3 := by
    show market_step (run initState (tickEvs1 ++ List.take 1 tickEvs2)) (tickMsg "99.9992") 2
      = cexS3
    rw [h2]
    show book_ticker_update cexS2 ((parseDecimal "99.9992").getD 0) 2 = cexS3
    rw [hpb, book_ticker_noauth_display cexS2 99.9992 100.0008 2 rfl rfl
      (by norm_num [lt_abs])]
    rfl
  have h4 : run initState (tickEvs1 ++ List.take 3 tickEvs2) = cexS4 := by
    show market_step (run initState (tickEvs1 ++ List.take 2 tickEvs2)) (tickMsg "100") 3 = cexS4
    rw [h3]
    show book_ticker_update cexS3 ((parseDecimal "100").getD 0) 3 = cexS4
    rw [hp100, book_ticker_noauth_quiet cexS3 100 99.9992 3 rfl rfl
      (by norm_num [abs_le]) (by decide)]
    rfl
  have h5 : run initState (tickEvs1 ++ tickEvs2) = cexS5 := by
    show market_step (run initState (tickEvs1 ++ List.take 3 tickEvs2)) (tickMsg "99.9985") 4
      = cexS5
    rw [h4]
    show book_ticker_update cexS4 ((parseDecimal "99.9985").getD 0) 4 = cexS5
    rw [hpc, book_ticker_noauth_display cexS4 99.9985 100 4 rfl rfl
      (by norm_num [lt_abs])]
    rfl
  refine ⟨by rw [h1]; rfl, by rw [h1]; rfl, by rw [h2]; rfl, by rw [h3]; rfl,
    by rw [h4]; rfl, by rw [h5]; rfl, by norm_num [abs_le], by norm_num [abs_le],
    by norm_num [abs_le], by norm_num [abs_le], by decide⟩

theorem book_ticker_quiet_fields (s : SysState) (p p0 : ℚ) (now : Nat)
    (hp : s.share_price.gia_mua_gate = some p0)
    (hle : |p - p0| ≤ (0.001 : ℚ)) (ht : now - s.last_print ≤ 5) :
    (book_ticker_update s p now).displays = s.displays ∧
    (book_ticker_update s p now).last_print = s.last_print ∧
    (book_ticker_update s p now).share_price.gia_mua_gate = some p := by
  unfold book_ticker_update
  dsimp only
  split <;>
    simp [hp, decide_eq_false (not_lt.mpr hle), decide_eq_false (not_lt.mpr ht)]

/-- Claim C7 amended: the display throttle compares the new ask against the
previous *stored* price (not the last displayed price): a display is emitted
only when no price was stored yet, or the ask moved by more than 0.001 from
the previous stored price, or more than 5 units elapsed since the last
display; consequently a sequence of updates each within 0.001 of the
immediately preceding stored price and within 5 units of the last display
emits no display events at all. -/
theorem display_throttled (us : List (ℚ × Nat)) (s : SysState) (p0 : ℚ)
    (hp : s.share_price.gia_mua_gate = some p0)
    (hq : quietSeq p0 s.last_print us = true) :
    (runUpdates s us).displays = s.displays := by
  induction us generalizing s p0 with
  | nil => rfl
  | cons u rest ih =>
      obtain ⟨p, t⟩ := u
      rw [quietSeq] at hq
      simp only [Bool.and_eq_true, decide_eq_true_eq] at hq
      obtain ⟨⟨hle, ht⟩, hrest⟩ := hq
      have hstep := book_ticker_quiet_fields s p p0 t hp hle ht
      have hrun : runUpdates s ((p, t) :: rest) = runUpdates (book_ticker_update s p t) rest := rfl
      rw [hrun, ih (book_ticker_update s p t) p hstep.2.2 (by rw [hstep.2.1]; exact hrest),
        hstep.1]

/-- Witness for C7: two updates within 0.001 of their predecessors and inside
the window emit no display beyond the one already counted. -/
theorem display_throttled_witness :
    (runUpdates dispState [((100.0008 : ℚ), 1), ((100.0003 : ℚ), 2)]).displays = 1 := by
  have h := display_throttled [((100.0008 : ℚ), 1), ((100.0003 : ℚ), 2)] dispState 100 rfl
    (by simp [quietSeq, decide_eq_true_eq]
        exact ⟨⟨by norm_num [abs_le], by decide⟩, by norm_num [abs_le], by decide⟩)
  rw [h]
  rfl

end GateIO
